import Mathlib

/-!
Shallow embedding of `src/net/peer/connect/connect.rs` (crust).

The file under verification implements the rendezvous-connect orchestration:
it races direct-outgoing TCP attempts, one relay-assisted (p2p) attempt and
the direct-incoming stream of already-accepted connections, validates the
handshake `ConnectRequest` carried on every candidate, takes the first
success and aggregates all per-attempt failures otherwise.

Modelling conventions:
* `UID` and `NameHash` are opaque comparable values, so they are type
  parameters with decidable equality; the `Display` rendering used by
  `InvalidUid` is an explicit `format : UID → String` parameter.
* Opaque external error payloads (`io::Error`, `SocketError`,
  `p2p::TcpRendezvousConnectError`) are wrapped numeric codes: the code
  under verification only moves them around, never inspects them.
* A raw `TcpStream` / framed `Socket` is modelled by the observations the
  orchestrator makes of it: the result of querying `peer_addr`, the result
  of sending our handshake message, the first message produced by the
  framed stream, and the result of the external
  `peer::from_handshaken_socket` upgrade.
* The event loop's nondeterministic completion order is modelled by an
  explicit list of `MergedEvent`s: the merged stream of per-attempt
  completions, in completion order (each direct dial completion carries its
  result; the single p2p completion's payload is determined by
  `PrivConnectionInfo`; each direct-incoming item carries its
  socket/request pair).
* `unwrap!` on `Err` is a process panic, a distinct outcome (`POutcome.panicked`)
  that is neither a per-attempt error nor a success.
-/

deriving instance DecidableEq for Except

namespace Crust

/-- Opaque payload of `io::Error`. -/
structure IoError where
  code : Nat
deriving DecidableEq, Repr

/-- Opaque payload of the transport `SocketError`. -/
structure SocketError where
  code : Nat
deriving DecidableEq, Repr

/-- Opaque payload of `p2p::TcpRendezvousConnectError`. -/
structure TcpRendezvousConnectError where
  code : Nat
deriving DecidableEq, Repr

/-- Opaque socket address. -/
structure SocketAddr where
  addr : Nat
deriving DecidableEq, Repr

/-- The handshake payload (`handshake_message.rs`, used by `connect.rs`):
claimed unique id and claimed network name hash. -/
structure ConnectRequest (UID NameHash : Type) where
  uid : UID
  name_hash : NameHash
deriving DecidableEq, Repr

/-- Wire envelope of the handshake phase. `connect.rs` only distinguishes the
`Connect` variant from every other variant (`Some(_msg)`), so all non-Connect
variants are collapsed into `Other` with an opaque tag. -/
inductive HandshakeMessage (UID NameHash : Type) where
  | Connect (req : ConnectRequest UID NameHash)
  | Other (tag : Nat)
deriving DecidableEq, Repr

/-- Per-attempt error, mirroring the `SingleConnectionError` enum. -/
inductive SingleConnectionError (NameHash : Type) where
  | Io (e : IoError)
  | Socket (e : SocketError)
  | ConnectionDropped
  | InvalidUid (formatted_received_uid : String) (formatted_expected_uid : String)
  | InvalidNameHash (name_hash : NameHash)
  | UnexpectedMessage
  | TimedOut
  | DeadChannel
  | RendezvousConnect (e : TcpRendezvousConnectError)
deriving DecidableEq, Repr

/-- Whole-operation error, mirroring the `ConnectError` enum. -/
inductive ConnectError (NameHash : Type) where
  | RequestedConnectToSelf
  | Io (e : IoError)
  | ChooseConnection (e : SocketError)
  | AllConnectionsFailed (v : List (SingleConnectionError NameHash))
  | TimedOut
deriving DecidableEq, Repr

/-- The constant `TIMEOUT_SEC` declared at the top of `connect.rs`. -/
def TIMEOUT_SEC : Nat := 60

/-- The framed socket, modelled by the observations `connect.rs` makes of it:
whether sending our handshake succeeds, what the first incoming message is
(`Err` socket fault / end of stream / a message), and the result of the
external `peer::from_handshaken_socket` upgrade. -/
structure Socket (UID NameHash : Type) where
  peerAddr : SocketAddr
  sendResult : Except SocketError Unit
  firstMsg : Except SocketError (Option (HandshakeMessage UID NameHash))
  upgradeResult : Except IoError Unit
deriving DecidableEq, Repr

/-- A raw TCP stream: the result of querying its `peer_addr`, and the framed
socket that `Socket::wrap_tcp` turns it into. -/
structure TcpStream (UID NameHash : Type) where
  peer_addr : Except IoError SocketAddr
  sock : Socket UID NameHash
deriving DecidableEq, Repr

/-- `Socket::wrap_tcp(handle, stream, peer_addr)`: wraps the raw stream,
recording the queried peer address. -/
def Socket.wrap_tcp {UID NameHash : Type} (stream : TcpStream UID NameHash)
    (peer_addr : SocketAddr) : Socket UID NameHash :=
  { stream.sock with peerAddr := peer_addr }

/-- `socket.send((priority, msg))`: delivers a framed message; on success the
socket is handed back. The outcome does not depend on the message content. -/
def Socket.send {UID NameHash : Type} (socket : Socket UID NameHash)
    (_msg : Nat × HandshakeMessage UID NameHash) :
    Except SocketError (Socket UID NameHash) :=
  match socket.sendResult with
  | .error e => .error e
  | .ok () => .ok socket

/-- `socket.into_future()`: awaits the first incoming message, yielding
`(msg_opt, socket)`; `none` means the stream ended. -/
def Socket.into_future {UID NameHash : Type} (socket : Socket UID NameHash) :
    Except SocketError (Option (HandshakeMessage UID NameHash) × Socket UID NameHash) :=
  match socket.firstMsg with
  | .error e => .error e
  | .ok m => .ok (m, socket)

/-- A oneshot receiver: either cancelled (sender dropped without sending) or
delivered exactly one value. -/
inductive OneshotRx (α : Type) where
  | cancelled
  | delivered (a : α)
deriving DecidableEq, Repr

/-- The unbounded rendezvous relay channel; an unbounded send fails exactly
when the other side is gone, independent of the payload. -/
structure UnboundedBiChannel where
  send_ok : Bool
deriving DecidableEq, Repr

/-- Our half of the connection info, with the fields `connect` consumes:
our id, the oneshot receiver for the eventually-delivered rendezvous
connection result, and the relay channel used to send our p2p payload. -/
structure PrivConnectionInfo (UID NameHash : Type) where
  id : UID
  connection_rx :
    OneshotRx (Except (SingleConnectionError NameHash) (TcpStream UID NameHash))
  rendezvous_channel : UnboundedBiChannel
deriving DecidableEq, Repr

/-- The remote peer's half of the connection info. -/
structure PubConnectionInfo (UID : Type) where
  id : UID
  for_direct : List SocketAddr
  p2p_conn_info : List Nat
deriving DecidableEq, Repr

/-- `CrustUser` role tag. -/
inductive CrustUser where
  | Node
  | Client
deriving DecidableEq, Repr

/-- An established peer handle, as produced by the external upgrade. -/
structure Peer (UID NameHash : Type) where
  socket : Socket UID NameHash
  uid : UID
  kind : CrustUser
deriving DecidableEq, Repr

/-- `peer::from_handshaken_socket(handle, socket, their_uid, kind)`: the
out-of-scope upgrade of an authenticated socket into a peer handle; its
possible io failure is the socket's recorded `upgradeResult`. -/
def from_handshaken_socket {UID NameHash : Type} (socket : Socket UID NameHash)
    (their_uid : UID) (kind : CrustUser) : Except IoError (Peer UID NameHash) :=
  match socket.upgradeResult with
  | .error e => .error e
  | .ok () => .ok ⟨socket, their_uid, kind⟩

/-- `validate_connect_request(expected_uid, our_name_hash, connect_request)`:
the pure handshake validator of `connect.rs`. -/
def validate_connect_request {UID NameHash : Type} [DecidableEq UID]
    [DecidableEq NameHash] (format : UID → String) (expected_uid : UID)
    (our_name_hash : NameHash) (connect_request : ConnectRequest UID NameHash) :
    Except (SingleConnectionError NameHash) Unit :=
  let their_uid := connect_request.uid
  let their_name_hash := connect_request.name_hash
  if their_uid ≠ expected_uid then
    .error (.InvalidUid (format their_uid) (format expected_uid))
  else if our_name_hash ≠ their_name_hash then
    .error (.InvalidNameHash their_name_hash)
  else
    .ok ()

/-- Outcome of processing one stream item in the orchestrator's pipeline:
either a process panic (from `unwrap!`), a per-attempt error, or a validated
candidate. -/
inductive POutcome (ε α : Type) where
  | panicked
  | error (e : ε)
  | ok (a : α)
deriving DecidableEq, Repr

/-- The processing chain applied to every item of
`direct_connections.select(p2p_connection.into_stream())` in `connect`:
stream-level errors pass through untouched; a delivered raw stream has its
peer address queried with `unwrap!` (panic on `Err`), is wrapped, our
`ConnectRequest` is sent, exactly one message is awaited, and a `Connect`
variant is validated. -/
def all_connections_step {UID NameHash : Type} [DecidableEq UID]
    [DecidableEq NameHash] (format : UID → String) (their_id : UID)
    (name_hash : NameHash) (our_connect_request : ConnectRequest UID NameHash)
    (ev : Except (SingleConnectionError NameHash) (TcpStream UID NameHash)) :
    POutcome (SingleConnectionError NameHash) (Socket UID NameHash × UID) :=
  match ev with
  | .error e => .error e
  | .ok stream =>
    match stream.peer_addr with
    | .error _ => .panicked
    | .ok peer_addr =>
      let socket := Socket.wrap_tcp stream peer_addr
      match socket.send (0, .Connect our_connect_request) with
      | .error e => .error (.Socket e)
      | .ok socket =>
        match socket.into_future with
        | .error e => .error (.Socket e)
        | .ok (msg_opt, socket) =>
          match msg_opt with
          | none => .error .ConnectionDropped
          | some (.Connect connect_request) =>
            match validate_connect_request format their_id name_hash connect_request with
            | .error e => .error e
            | .ok () => .ok (socket, connect_request.uid)
          | some (.Other _) => .error .UnexpectedMessage

/-- The processing applied to every `(socket, connect_request)` item of the
`direct_incoming` stream in `connect`: validate the received request, then
send our own request back over the same socket; on success the candidate is
`(socket, their_id)`. -/
def direct_incoming_step {UID NameHash : Type} [DecidableEq UID]
    [DecidableEq NameHash] (format : UID → String) (their_id : UID)
    (name_hash : NameHash) (our_connect_request : ConnectRequest UID NameHash)
    (item : Socket UID NameHash × ConnectRequest UID NameHash) :
    Except (SingleConnectionError NameHash) (Socket UID NameHash × UID) :=
  let (socket, connect_request) := item
  match validate_connect_request format their_id name_hash connect_request with
  | .error e => .error e
  | .ok () =>
    match socket.send (0, .Connect our_connect_request) with
    | .error e => .error (.Socket e)
    | .ok socket => .ok (socket, their_id)

/-- The `p2p_connection` future built in `connect`: send our p2p payload over
the rendezvous relay channel (failure is `DeadChannel`), then await the
oneshot `connection_rx` (a cancelled receiver is `DeadChannel`; the delivered
inner result is flattened by `and_then(|res| res)`). -/
def p2p_connection {UID NameHash : Type}
    (our_info : PrivConnectionInfo UID NameHash) (_conn_info : List Nat) :
    Except (SingleConnectionError NameHash) (TcpStream UID NameHash) :=
  if our_info.rendezvous_channel.send_ok then
    match our_info.connection_rx with
    | .cancelled => .error .DeadChannel
    | .delivered res => res
  else
    .error .DeadChannel

/-- One completion of the merged attempt stream, in the order the event loop
observes completions: a direct dial completing (with the dial's result), the
single p2p attempt completing, or a direct-incoming item arriving. -/
inductive MergedEvent (UID NameHash : Type) where
  | direct (r : Except IoError (TcpStream UID NameHash))
  | p2p
  | incoming (item : Socket UID NameHash × ConnectRequest UID NameHash)
deriving DecidableEq, Repr

/-- The per-attempt outcome a completion contributes to the race: direct dial
errors become `SingleConnectionError::Io` and flow through the shared
`all_connections_step` chain, the p2p completion's payload is determined by
`p2p_connection`, and incoming items flow through `direct_incoming_step`. -/
def merged_outcome {UID NameHash : Type} [DecidableEq UID] [DecidableEq NameHash]
    (format : UID → String) (their_id : UID) (name_hash : NameHash)
    (our_connect_request : ConnectRequest UID NameHash)
    (our_info : PrivConnectionInfo UID NameHash) (conn_info : List Nat) :
    MergedEvent UID NameHash →
      POutcome (SingleConnectionError NameHash) (Socket UID NameHash × UID)
  | .direct r =>
    all_connections_step format their_id name_hash our_connect_request
      (r.mapError SingleConnectionError.Io)
  | .p2p =>
    all_connections_step format their_id name_hash our_connect_request
      (p2p_connection our_info conn_info)
  | .incoming item =>
    match direct_incoming_step format their_id name_hash our_connect_request item with
    | .error e => .error e
    | .ok a => .ok a

/-- The `first_ok` race combinator: poll the merged outcomes in completion
order; the first success wins and stops the race, a panic kills the process,
and exhaustion yields every error in the order observed. -/
def first_ok {ε α : Type} : List (POutcome ε α) → POutcome (List ε) α
  | [] => .error []
  | .panicked :: _ => .panicked
  | .ok a :: _ => .ok a
  | .error e :: rest =>
    match first_ok rest with
    | .panicked => .panicked
    | .ok a => .ok a
    | .error errs => .error (e :: errs)

/-- The list of per-attempt outcomes `connect` races, given the completion
schedule `events`. -/
def connect_outcomes {UID NameHash : Type} [DecidableEq UID] [DecidableEq NameHash]
    (format : UID → String) (name_hash : NameHash)
    (our_info : PrivConnectionInfo UID NameHash)
    (their_info : PubConnectionInfo UID)
    (events : List (MergedEvent UID NameHash)) :
    List (POutcome (SingleConnectionError NameHash) (Socket UID NameHash × UID)) :=
  events.map
    (merged_outcome format their_info.id name_hash
      ⟨our_info.id, name_hash⟩ our_info their_info.p2p_conn_info)

/-- The `connect` entry point of `connect.rs`: reject self-connects, race
every attempt's outcome with `first_ok`, wrap exhaustion as
`AllConnectionsFailed`, and upgrade the winning candidate via
`peer::from_handshaken_socket`, surfacing its failure as `ConnectError::Io`. -/
def connect {UID NameHash : Type} [DecidableEq UID] [DecidableEq NameHash]
    (format : UID → String) (name_hash : NameHash)
    (our_info : PrivConnectionInfo UID NameHash)
    (their_info : PubConnectionInfo UID)
    (events : List (MergedEvent UID NameHash)) :
    POutcome (ConnectError NameHash) (Peer UID NameHash) :=
  if our_info.id = their_info.id then
    .error .RequestedConnectToSelf
  else
    match first_ok (connect_outcomes format name_hash our_info their_info events) with
    | .panicked => .panicked
    | .error errs => .error (.AllConnectionsFailed errs)
    | .ok (socket, their_uid) =>
      match from_handshaken_socket socket their_uid .Node with
      | .error e => .error (.Io e)
      | .ok p => .ok p

/-- The `start_rendezvous_connect` entry point: the spawned task maps a
negotiation failure to `RendezvousConnect`, sends the result over the oneshot
channel, and swallows the send error (`or_else(|_| Ok(()))`). The model
returns what the receiver observes (at most one delivered value, `none` when
the receiver was already dropped) together with the spawned task's own
result. -/
def start_rendezvous_connect {UID NameHash : Type}
    (negotiation : Except TcpRendezvousConnectError (TcpStream UID NameHash))
    (receiver_alive : Bool) :
    Option (Except (SingleConnectionError NameHash) (TcpStream UID NameHash)) ×
      Except Unit Unit :=
  let result : Except (SingleConnectionError NameHash) (TcpStream UID NameHash) :=
    match negotiation with
    | .ok stream => .ok stream
    | .error e => .error (.RendezvousConnect e)
  let sent : Option (Except (SingleConnectionError NameHash) (TcpStream UID NameHash)) ×
      Except Unit Unit :=
    if receiver_alive then (some result, .ok ()) else (none, .error ())
  (sent.1,
    match sent.2 with
    | .error _ => .ok ()
    | .ok () => .ok ())

/-- The `ConnectRequest` a completion carries inbound, if any: the request of
a direct-incoming item, or the `Connect` payload of the first message of a
delivered raw stream. -/
def event_request {UID NameHash : Type}
    (our_info : PrivConnectionInfo UID NameHash) (conn_info : List Nat) :
    MergedEvent UID NameHash → Option (ConnectRequest UID NameHash)
  | .incoming item => some item.2
  | .direct (.error _) => none
  | .direct (.ok stream) =>
    match stream.sock.firstMsg with
    | .ok (some (.Connect req)) => some req
    | _ => none
  | .p2p =>
    match p2p_connection our_info conn_info with
    | .ok stream =>
      match stream.sock.firstMsg with
      | .ok (some (.Connect req)) => some req
      | _ => none
    | .error _ => none

/-! ### Helper lemmas -/

theorem validate_ok_iff {UID NameHash : Type} [DecidableEq UID]
    [DecidableEq NameHash] (format : UID → String) (expected_uid : UID)
    (our_name_hash : NameHash) (req : ConnectRequest UID NameHash) :
    validate_connect_request format expected_uid our_name_hash req = .ok () ↔
      req.uid = expected_uid ∧ req.name_hash = our_name_hash := by
  simp only [validate_connect_request]
  split_ifs with h1 h2 <;> simp_all
  exact fun h => (h2 h.symm).elim

theorem first_ok_all_errors {ε α : Type} (es : List ε) :
    first_ok (α := α) (es.map POutcome.error) = .error es := by
  induction es with
  | nil => rfl
  | cons e es ih => simp [first_ok, ih]

theorem first_ok_errors_then_ok {ε α : Type} (es : List ε) (a : α)
    (rest : List (POutcome ε α)) :
    first_ok (es.map POutcome.error ++ POutcome.ok a :: rest) = .ok a := by
  induction es with
  | nil => rfl
  | cons e es ih => simp [first_ok, ih]

theorem first_ok_errors_then_panicked {ε α : Type} (es : List ε)
    (rest : List (POutcome ε α)) :
    first_ok (es.map POutcome.error ++ POutcome.panicked :: rest) = .panicked := by
  induction es with
  | nil => rfl
  | cons e es ih => simp [first_ok, ih]

theorem first_ok_ok_mem {ε α : Type} {l : List (POutcome ε α)} {a : α}
    (h : first_ok l = .ok a) : POutcome.ok a ∈ l := by
  induction l with
  | nil => simp [first_ok] at h
  | cons x rest ih =>
    cases x with
    | panicked => simp [first_ok] at h
    | ok b =>
      simp [first_ok] at h
      simp [h]
    | error e =>
      cases heq : first_ok rest with
      | panicked => simp [first_ok, heq] at h
      | error errs => simp [first_ok, heq] at h
      | ok b =>
        simp [first_ok, heq] at h
        exact List.mem_cons_of_mem _ (ih (h ▸ heq))

theorem all_connections_step_ok_elim {UID NameHash : Type} [DecidableEq UID]
    [DecidableEq NameHash] {format : UID → String} {their_id : UID}
    {name_hash : NameHash} {our_req : ConnectRequest UID NameHash}
    {stream : TcpStream UID NameHash} {socket : Socket UID NameHash} {uid : UID}
    (h : all_connections_step format their_id name_hash our_req (.ok stream) =
      .ok (socket, uid)) :
    ∃ req, stream.sock.firstMsg = .ok (some (.Connect req)) ∧
      validate_connect_request format their_id name_hash req = .ok () ∧
      uid = req.uid := by
  cases hpa : stream.peer_addr with
  | error e => simp [all_connections_step, hpa] at h
  | ok pa =>
    cases hs : stream.sock.sendResult with
    | error e =>
      simp [all_connections_step, hpa, Socket.send, Socket.wrap_tcp, hs] at h
    | ok u =>
      cases u
      cases hm : stream.sock.firstMsg with
      | error e =>
        simp [all_connections_step, hpa, Socket.send, Socket.wrap_tcp,
          Socket.into_future, hs, hm] at h
      | ok mo =>
        cases mo with
        | none =>
          simp [all_connections_step, hpa, Socket.send, Socket.wrap_tcp,
            Socket.into_future, hs, hm] at h
        | some msg =>
          cases msg with
          | Other t =>
            simp [all_connections_step, hpa, Socket.send, Socket.wrap_tcp,
              Socket.into_future, hs, hm] at h
          | Connect req =>
            cases hv : validate_connect_request format their_id name_hash req with
            | error e =>
              simp [all_connections_step, hpa, Socket.send, Socket.wrap_tcp,
                Socket.into_future, hs, hm, hv] at h
            | ok u =>
              cases u
              simp [all_connections_step, hpa, Socket.send, Socket.wrap_tcp,
                Socket.into_future, hs, hm, hv] at h
              exact ⟨req, rfl, hv, h.2.symm⟩

theorem direct_incoming_step_ok_elim {UID NameHash : Type} [DecidableEq UID]
    [DecidableEq NameHash] {format : UID → String} {their_id : UID}
    {name_hash : NameHash} {our_req : ConnectRequest UID NameHash}
    {item : Socket UID NameHash × ConnectRequest UID NameHash}
    {socket : Socket UID NameHash} {uid : UID}
    (h : direct_incoming_step format their_id name_hash our_req item =
      .ok (socket, uid)) :
    validate_connect_request format their_id name_hash item.2 = .ok () ∧
      uid = their_id := by
  obtain ⟨sock, req⟩ := item
  cases hv : validate_connect_request format their_id name_hash req with
  | error e => simp [direct_incoming_step, hv] at h
  | ok u =>
    cases u
    cases hs : sock.sendResult with
    | error e => simp [direct_incoming_step, hv, Socket.send, hs] at h
    | ok u' =>
      cases u'
      simp [direct_incoming_step, hv, Socket.send, hs] at h
      exact ⟨rfl, h.2.symm⟩

theorem merged_outcome_ok_elim {UID NameHash : Type} [DecidableEq UID]
    [DecidableEq NameHash] {format : UID → String} {their_id : UID}
    {name_hash : NameHash} {our_req : ConnectRequest UID NameHash}
    {our_info : PrivConnectionInfo UID NameHash} {conn_info : List Nat}
    {ev : MergedEvent UID NameHash} {socket : Socket UID NameHash} {uid : UID}
    (h : merged_outcome format their_id name_hash our_req our_info conn_info ev =
      .ok (socket, uid)) :
    ∃ req, event_request our_info conn_info ev = some req ∧
      validate_connect_request format their_id name_hash req = .ok () ∧
      uid = req.uid := by
  cases ev with
  | direct r =>
    cases r with
    | error e => simp [merged_outcome, Except.mapError, all_connections_step] at h
    | ok stream =>
      have hh : all_connections_step format their_id name_hash our_req (.ok stream) =
          .ok (socket, uid) := by
        simpa [merged_outcome, Except.mapError] using h
      obtain ⟨req, hm, hv, hu⟩ := all_connections_step_ok_elim hh
      exact ⟨req, by simp [event_request, hm], hv, hu⟩
  | p2p =>
    cases hp : p2p_connection our_info conn_info with
    | error e => simp [merged_outcome, hp, all_connections_step] at h
    | ok stream =>
      have hh : all_connections_step format their_id name_hash our_req (.ok stream) =
          .ok (socket, uid) := by
        simpa [merged_outcome, hp] using h
      obtain ⟨req, hm, hv, hu⟩ := all_connections_step_ok_elim hh
      exact ⟨req, by simp [event_request, hp, hm], hv, hu⟩
  | incoming item =>
    cases hd : direct_incoming_step format their_id name_hash our_req item with
    | error e => simp [merged_outcome, hd] at h
    | ok a =>
      have ha : a = (socket, uid) := by simpa [merged_outcome, hd] using h
      obtain ⟨hv, hu⟩ := direct_incoming_step_ok_elim (ha ▸ hd)
      refine ⟨item.2, rfl, hv, ?_⟩
      have := (validate_ok_iff format their_id name_hash item.2).mp hv
      rw [hu, this.1]

/-! ### Claim theorems -/

/-- C1: `connect` never resolves to a successful peer handle unless the
winning candidate's handshake `ConnectRequest` carried exactly the expected
remote identity and our network name hash: whatever the completion schedule
(direct-incoming, direct-outgoing or relay-assisted events), a success of
`connect` exhibits a winning event whose inbound request has
`uid = their_info.id` and `name_hash = name_hash` and passes
`validate_connect_request`. -/
theorem connect_ok_handshake_validated {UID NameHash : Type} [DecidableEq UID]
    [DecidableEq NameHash] (format : UID → String) (name_hash : NameHash)
    (our_info : PrivConnectionInfo UID NameHash)
    (their_info : PubConnectionInfo UID)
    (events : List (MergedEvent UID NameHash)) (p : Peer UID NameHash)
    (h : connect format name_hash our_info their_info events = .ok p) :
    ∃ ev ∈ events, ∃ req,
      event_request our_info their_info.p2p_conn_info ev = some req ∧
      req.uid = their_info.id ∧ req.name_hash = name_hash ∧
      validate_connect_request format their_info.id name_hash req = .ok () := by
  by_cases hid : our_info.id = their_info.id
  · simp [connect, hid] at h
  · cases hfo : first_ok (connect_outcomes format name_hash our_info their_info events) with
    | panicked => simp [connect, if_neg hid, hfo] at h
    | error errs => simp [connect, if_neg hid, hfo] at h
    | ok su =>
      obtain ⟨socket, uid⟩ := su
      have hmem := first_ok_ok_mem hfo
      rw [connect_outcomes, List.mem_map] at hmem
      obtain ⟨ev, hev, hout⟩ := hmem
      obtain ⟨req, hreq, hval, -⟩ := merged_outcome_ok_elim hout
      have hok := (validate_ok_iff format their_info.id name_hash req).mp hval
      exact ⟨ev, hev, req, hreq, hok.1, hok.2, hval⟩

/-! Concrete fixtures used by the witnesses. -/

def sockW : Socket Nat Nat :=
  { peerAddr := ⟨0⟩, sendResult := .ok (), firstMsg := .ok none,
    upgradeResult := .ok () }

def ourInfoW : PrivConnectionInfo Nat Nat :=
  { id := 1, connection_rx := .cancelled, rendezvous_channel := ⟨false⟩ }

def theirInfoW : PubConnectionInfo Nat :=
  { id := 2, for_direct := [], p2p_conn_info := [] }

/-- Witness for C1: a concrete successful `connect` run on a direct-incoming
candidate, whose winning request is exhibited. -/
theorem connect_ok_handshake_validated_witness :
    ∃ ev ∈ [MergedEvent.incoming (sockW, (⟨2, 7⟩ : ConnectRequest Nat Nat))],
      ∃ req, event_request ourInfoW theirInfoW.p2p_conn_info ev = some req ∧
        req.uid = theirInfoW.id ∧ req.name_hash = 7 ∧
        validate_connect_request toString theirInfoW.id 7 req = .ok () :=
  connect_ok_handshake_validated toString 7 ourInfoW theirInfoW
    [MergedEvent.incoming (sockW, (⟨2, 7⟩ : ConnectRequest Nat Nat))]
    ⟨sockW, 2, .Node⟩ rfl

/-- C3: `validate_connect_request` rejects a wrong claimed identity with
`InvalidUid` carrying the rendered received and expected identities (the
identity check runs first, so this holds even when the name hash also
mismatches); rejects a matching identity with a wrong network identity with
`InvalidNameHash` carrying the peer's hash; and succeeds exactly when both
fields match. As a Lean function it is pure and side-effect-free. -/
theorem validate_connect_request_spec {UID NameHash : Type} [DecidableEq UID]
    [DecidableEq NameHash] (format : UID → String) (expected_uid : UID)
    (our_name_hash : NameHash) (req : ConnectRequest UID NameHash) :
    (req.uid ≠ expected_uid →
      validate_connect_request format expected_uid our_name_hash req =
        .error (.InvalidUid (format req.uid) (format expected_uid)))
    ∧ (req.uid = expected_uid → req.name_hash ≠ our_name_hash →
      validate_connect_request format expected_uid our_name_hash req =
        .error (.InvalidNameHash req.name_hash))
    ∧ (validate_connect_request format expected_uid our_name_hash req = .ok () ↔
      req.uid = expected_uid ∧ req.name_hash = our_name_hash) := by
  refine ⟨?_, ?_, validate_ok_iff format expected_uid our_name_hash req⟩
  · intro h
    simp [validate_connect_request, h]
  · intro h1 h2
    have h2' : ¬our_name_hash = req.name_hash := fun hx => h2 hx.symm
    simp [validate_connect_request, h1, h2']

/-- Witness for C3: all three behaviours at concrete requests. -/
theorem validate_connect_request_spec_witness :
    validate_connect_request toString 2 7 (⟨3, 9⟩ : ConnectRequest Nat Nat) =
      .error (.InvalidUid (toString (3 : Nat)) (toString (2 : Nat)))
    ∧ validate_connect_request toString 2 7 (⟨2, 9⟩ : ConnectRequest Nat Nat) =
      .error (.InvalidNameHash 9)
    ∧ validate_connect_request toString 2 7 (⟨2, 7⟩ : ConnectRequest Nat Nat) =
      .ok () :=
  ⟨(validate_connect_request_spec toString 2 7 ⟨3, 9⟩).1 (by decide),
   (validate_connect_request_spec toString 2 7 ⟨2, 9⟩).2.1 rfl (by decide),
   (validate_connect_request_spec toString 2 7 ⟨2, 7⟩).2.2.mpr (by decide)⟩

/-- C4: when the local identity equals the remote identity, `connect` fails
with `RequestedConnectToSelf` whatever else the inputs hold and whatever the
completion schedule — in particular no attempt event is ever consulted, so
no network activity contributes to the result. -/
theorem connect_to_self_rejected {UID NameHash : Type} [DecidableEq UID]
    [DecidableEq NameHash] (format : UID → String) (name_hash : NameHash)
    (our_info : PrivConnectionInfo UID NameHash)
    (their_info : PubConnectionInfo UID)
    (events : List (MergedEvent UID NameHash))
    (h : our_info.id = their_info.id) :
    connect format name_hash our_info their_info events =
      .error .RequestedConnectToSelf := by
  simp [connect, h]

/-- Witness for C4: a concrete self-connect, with a pending relay event that
is never consulted. -/
theorem connect_to_self_rejected_witness :
    connect toString 7 ourInfoW
      { id := 1, for_direct := [], p2p_conn_info := [] }
      [MergedEvent.p2p] = .error .RequestedConnectToSelf :=
  connect_to_self_rejected toString 7 ourInfoW
    { id := 1, for_direct := [], p2p_conn_info := [] }
    [MergedEvent.p2p] rfl

/-- C2: the race over the merged event sequence resolves to the first
outcome that is a success; preceding per-attempt errors never terminate the
race; and when the whole schedule yields only errors, `connect` resolves to
`AllConnectionsFailed` carrying every per-attempt error in the order the
failures were observed. -/
theorem race_semantics {UID NameHash : Type} [DecidableEq UID]
    [DecidableEq NameHash] (format : UID → String) (name_hash : NameHash)
    (our_info : PrivConnectionInfo UID NameHash)
    (their_info : PubConnectionInfo UID)
    (events : List (MergedEvent UID NameHash))
    (es : List (SingleConnectionError NameHash)) :
    (∀ (a : Socket UID NameHash × UID)
        (rest : List (POutcome (SingleConnectionError NameHash)
          (Socket UID NameHash × UID))),
        first_ok (es.map POutcome.error ++ POutcome.ok a :: rest) = .ok a)
    ∧ first_ok (α := Socket UID NameHash × UID) (es.map POutcome.error) =
        .error es
    ∧ (our_info.id ≠ their_info.id →
        connect_outcomes format name_hash our_info their_info events =
          es.map POutcome.error →
        connect format name_hash our_info their_info events =
          .error (.AllConnectionsFailed es)) := by
  refine ⟨fun a rest => first_ok_errors_then_ok es a rest,
    first_ok_all_errors es, ?_⟩
  intro hid hall
  simp [connect, hid, hall, first_ok_all_errors]

/-- Witness for C2: one direct dial that fails with an io error; `connect`
aggregates exactly that error. -/
theorem race_semantics_witness :
    connect toString 7 ourInfoW theirInfoW [MergedEvent.direct (.error ⟨5⟩)] =
      .error (.AllConnectionsFailed [.Io ⟨5⟩]) :=
  (race_semantics toString 7 ourInfoW theirInfoW
    [MergedEvent.direct (.error ⟨5⟩)] [.Io ⟨5⟩]).2.2 (by decide) (by rfl)

/-- C5: on a delivered raw connection (direct-outgoing or relay-assisted),
once our `ConnectRequest` has been sent the attempt's outcome is decided by
the single awaited message: stream end is `ConnectionDropped`, a non-Connect
variant is `UnexpectedMessage`, and a Connect variant is validated — success
yields `(socket, claimed uid)` and a validation failure is the attempt's
error. -/
theorem outgoing_single_message_outcome {UID NameHash : Type} [DecidableEq UID]
    [DecidableEq NameHash] (format : UID → String) (their_id : UID)
    (name_hash : NameHash) (our_req : ConnectRequest UID NameHash)
    (stream : TcpStream UID NameHash) (peer_addr : SocketAddr)
    (hpa : stream.peer_addr = .ok peer_addr)
    (hsend : stream.sock.sendResult = .ok ()) :
    (stream.sock.firstMsg = .ok none →
      all_connections_step format their_id name_hash our_req (.ok stream) =
        .error .ConnectionDropped)
    ∧ (∀ tag, stream.sock.firstMsg = .ok (some (.Other tag)) →
      all_connections_step format their_id name_hash our_req (.ok stream) =
        .error .UnexpectedMessage)
    ∧ (∀ req, stream.sock.firstMsg = .ok (some (.Connect req)) →
      validate_connect_request format their_id name_hash req = .ok () →
      all_connections_step format their_id name_hash our_req (.ok stream) =
        .ok (Socket.wrap_tcp stream peer_addr, req.uid))
    ∧ (∀ req e, stream.sock.firstMsg = .ok (some (.Connect req)) →
      validate_connect_request format their_id name_hash req = .error e →
      all_connections_step format their_id name_hash our_req (.ok stream) =
        .error e) := by
  refine ⟨?_, ?_, ?_, ?_⟩
  · intro hm
    simp [all_connections_step, hpa, Socket.send, Socket.wrap_tcp,
      Socket.into_future, hsend, hm]
  · intro tag hm
    simp [all_connections_step, hpa, Socket.send, Socket.wrap_tcp,
      Socket.into_future, hsend, hm]
  · intro req hm hv
    simp [all_connections_step, hpa, Socket.send, Socket.wrap_tcp,
      Socket.into_future, hsend, hm, hv]
  · intro req e hm hv
    simp [all_connections_step, hpa, Socket.send, Socket.wrap_tcp,
      Socket.into_future, hsend, hm, hv]

/-- Fixture: a healthy raw stream whose framed socket sees the stream end
before any message. -/
def streamW : TcpStream Nat Nat :=
  { peer_addr := .ok ⟨4⟩, sock := sockW }

/-- Witness for C5: the stream end before any message yields
`ConnectionDropped`. -/
theorem outgoing_single_message_outcome_witness :
    all_connections_step toString 2 7 (⟨1, 7⟩ : ConnectRequest Nat Nat)
      (.ok streamW) = .error .ConnectionDropped :=
  (outgoing_single_message_outcome toString 2 7 ⟨1, 7⟩ streamW ⟨4⟩
    rfl rfl).1 rfl

/-- C7: the relay-assisted attempt fails with `DeadChannel` in exactly two
situations — the relay-channel send failing, or the oneshot connection
receiver being cancelled before delivery (given that anything the rendezvous
task delivers as a failure is a `RendezvousConnect` wrapping) — and a
delivered raw connection is processed exactly like a direct-outgoing one. -/
theorem p2p_dead_channel_characterisation {UID NameHash : Type}
    [DecidableEq UID] [DecidableEq NameHash] (format : UID → String)
    (their_id : UID) (name_hash : NameHash)
    (our_req : ConnectRequest UID NameHash)
    (our_info : PrivConnectionInfo UID NameHash) (conn_info : List Nat)
    (hdelivered : ∀ e, our_info.connection_rx = .delivered (.error e) →
      ∃ c, e = .RendezvousConnect c) :
    (p2p_connection our_info conn_info = .error .DeadChannel ↔
      our_info.rendezvous_channel.send_ok = false ∨
        (our_info.rendezvous_channel.send_ok = true ∧
          our_info.connection_rx = .cancelled))
    ∧ (∀ stream, p2p_connection our_info conn_info = .ok stream →
      merged_outcome format their_id name_hash our_req our_info conn_info
          .p2p =
        merged_outcome format their_id name_hash our_req our_info conn_info
          (.direct (.ok stream))) := by
  constructor
  · constructor
    · intro h
      by_cases hs : our_info.rendezvous_channel.send_ok
      · right
        refine ⟨hs, ?_⟩
        cases hrx : our_info.connection_rx with
        | cancelled => rfl
        | delivered res =>
          cases res with
          | ok s => simp [p2p_connection, hs, hrx] at h
          | error e =>
            obtain ⟨c, hc⟩ := hdelivered e hrx
            simp [p2p_connection, hs, hrx, hc] at h
      · left
        simpa using hs
    · intro h
      rcases h with h | ⟨h1, h2⟩
      · simp [p2p_connection, h]
      · simp [p2p_connection, h1, h2]
  · intro stream h
    simp [merged_outcome, h, Except.mapError]

/-- Fixture: connection info whose relay channel is alive and whose oneshot
receiver delivers a healthy raw stream. -/
def ourInfoP2p : PrivConnectionInfo Nat Nat :=
  { id := 1, connection_rx := .delivered (.ok streamW),
    rendezvous_channel := ⟨true⟩ }

/-- Witness for C7: a delivered relay connection is processed exactly like a
direct-outgoing one. -/
theorem p2p_dead_channel_characterisation_witness :
    merged_outcome toString 2 7 (⟨1, 7⟩ : ConnectRequest Nat Nat) ourInfoP2p
        [] .p2p =
      merged_outcome toString 2 7 (⟨1, 7⟩ : ConnectRequest Nat Nat) ourInfoP2p
        [] (.direct (.ok streamW)) :=
  (p2p_dead_channel_characterisation toString 2 7 ⟨1, 7⟩ ourInfoP2p []
    (fun e he => by simp [ourInfoP2p] at he)).2 streamW rfl

/-- C8: the spawned rendezvous task funnels exactly one result into the
oneshot channel — the raw connection on success, or the negotiation failure
wrapped as `RendezvousConnect` — and when the receiver is already dropped
the delivery is discarded while the task still completes cleanly. -/
theorem start_rendezvous_connect_spec {UID NameHash : Type}
    (negotiation : Except TcpRendezvousConnectError (TcpStream UID NameHash))
    (receiver_alive : Bool) :
    (start_rendezvous_connect negotiation receiver_alive).2 = .ok ()
    ∧ (receiver_alive = true → ∀ stream, negotiation = .ok stream →
      (start_rendezvous_connect negotiation receiver_alive).1 =
        some (.ok stream))
    ∧ (receiver_alive = true → ∀ e, negotiation = .error e →
      (start_rendezvous_connect negotiation receiver_alive).1 =
        some (.error (.RendezvousConnect e)))
    ∧ (receiver_alive = false →
      (start_rendezvous_connect negotiation receiver_alive).1 = none) := by
  refine ⟨?_, ?_, ?_, ?_⟩
  · cases receiver_alive <;> simp [start_rendezvous_connect]
  · intro ha stream hn
    subst ha
    subst hn
    simp [start_rendezvous_connect]
  · intro ha e hn
    subst ha
    subst hn
    simp [start_rendezvous_connect]
  · intro ha
    subst ha
    simp [start_rendezvous_connect]

/-- Witness for C8: a failed negotiation with a live receiver delivers the
wrapped failure and the task completes cleanly. -/
theorem start_rendezvous_connect_spec_witness :
    (@start_rendezvous_connect Nat Nat (.error ⟨3⟩) true).2 = .ok ()
    ∧ (@start_rendezvous_connect Nat Nat (.error ⟨3⟩) true).1 =
        some (.error (.RendezvousConnect ⟨3⟩)) :=
  ⟨(@start_rendezvous_connect_spec Nat Nat (.error ⟨3⟩) true).1,
   (@start_rendezvous_connect_spec Nat Nat (.error ⟨3⟩) true).2.2.1
      rfl ⟨3⟩ rfl⟩

/-- Modelled from the spec: the transport finalization ("choose connection")
step at the completion stage is not part of this file — `connect.rs` only
declares the `ConnectError::ChooseConnection` variant, and no code under
`src/` constructs it. Per the spec, any transport/finalization fault at that
stage is propagated as `ConnectError::ChooseConnection`. -/
def finalize_transport {UID NameHash : Type}
    (r : Except SocketError (Peer UID NameHash)) :
    Except (ConnectError NameHash) (Peer UID NameHash) :=
  match r with
  | .error e => .error (.ChooseConnection e)
  | .ok p => .ok p

/-- C9: when the winning candidate's upgrade into a peer handle fails, the
failure is surfaced as `ConnectError::Io`; and (spec-modelled) a
transport/finalization fault at that stage is propagated as
`ConnectError::ChooseConnection`. -/
theorem completion_failure_mapping {UID NameHash : Type} [DecidableEq UID]
    [DecidableEq NameHash] (format : UID → String) (name_hash : NameHash)
    (our_info : PrivConnectionInfo UID NameHash)
    (their_info : PubConnectionInfo UID)
    (events : List (MergedEvent UID NameHash))
    (errs : List (SingleConnectionError NameHash))
    (rest : List (POutcome (SingleConnectionError NameHash)
      (Socket UID NameHash × UID)))
    (socket : Socket UID NameHash) (uid : UID) (e : IoError)
    (hid : our_info.id ≠ their_info.id)
    (hsched : connect_outcomes format name_hash our_info their_info events =
      errs.map POutcome.error ++ POutcome.ok (socket, uid) :: rest)
    (hup : socket.upgradeResult = .error e) :
    connect format name_hash our_info their_info events = .error (.Io e)
    ∧ ∀ s : SocketError,
        @finalize_transport UID NameHash (.error s) =
          .error (.ChooseConnection s) := by
  constructor
  · simp [connect, hid, hsched, first_ok_errors_then_ok,
      from_handshaken_socket, hup]
  · intro s
    rfl

/-- Fixture: an incoming candidate whose socket fails the final upgrade. -/
def sockBadUpgrade : Socket Nat Nat :=
  { peerAddr := ⟨0⟩, sendResult := .ok (), firstMsg := .ok none,
    upgradeResult := .error ⟨8⟩ }

/-- Witness for C9: a winning candidate whose upgrade fails yields `Io`, and
the modelled finalization maps a socket fault to `ChooseConnection`. -/
theorem completion_failure_mapping_witness :
    connect toString 7 ourInfoW theirInfoW
        [MergedEvent.incoming (sockBadUpgrade, ⟨2, 7⟩)] = .error (.Io ⟨8⟩)
    ∧ @finalize_transport Nat Nat (.error ⟨9⟩) =
        .error (.ChooseConnection ⟨9⟩) :=
  ⟨(completion_failure_mapping toString 7 ourInfoW theirInfoW
      [MergedEvent.incoming (sockBadUpgrade, ⟨2, 7⟩)] [] [] sockBadUpgrade 2
      ⟨8⟩ (by decide) (by rfl) rfl).1,
   (completion_failure_mapping toString 7 ourInfoW theirInfoW
      [MergedEvent.incoming (sockBadUpgrade, ⟨2, 7⟩)] [] [] sockBadUpgrade 2
      ⟨8⟩ (by decide) (by rfl) rfl).2 ⟨9⟩⟩

/-- C10: a raw stream whose `peer_addr` query fails makes the pipeline panic
(via `unwrap!`): the attempt yields the panic outcome — never a
`SingleConnectionError` — and a schedule reaching such an event makes the
whole `connect` operation panic instead of letting the race continue. -/
theorem peer_addr_failure_panics {UID NameHash : Type} [DecidableEq UID]
    [DecidableEq NameHash] (format : UID → String) (name_hash : NameHash)
    (our_info : PrivConnectionInfo UID NameHash)
    (their_info : PubConnectionInfo UID)
    (events : List (MergedEvent UID NameHash))
    (errs : List (SingleConnectionError NameHash))
    (rest : List (POutcome (SingleConnectionError NameHash)
      (Socket UID NameHash × UID)))
    (stream : TcpStream UID NameHash) (e : IoError)
    (hpa : stream.peer_addr = .error e)
    (hid : our_info.id ≠ their_info.id)
    (hsched : connect_outcomes format name_hash our_info their_info events =
      errs.map POutcome.error ++ POutcome.panicked :: rest) :
    all_connections_step format their_info.id name_hash
        ⟨our_info.id, name_hash⟩ (.ok stream) = .panicked
    ∧ (∀ o : SingleConnectionError NameHash,
        all_connections_step format their_info.id name_hash
          ⟨our_info.id, name_hash⟩ (.ok stream) ≠ .error o)
    ∧ connect format name_hash our_info their_info events = .panicked := by
  refine ⟨?_, ?_, ?_⟩
  · simp [all_connections_step, hpa]
  · intro o
    simp [all_connections_step, hpa]
  · simp [connect, hid, hsched, first_ok_errors_then_panicked]

/-- Fixture: a raw stream whose `peer_addr` query fails. -/
def streamBad : TcpStream Nat Nat :=
  { peer_addr := .error ⟨6⟩, sock := sockW }

/-- Witness for C10: a single direct dial delivering a stream with a failing
`peer_addr` makes the whole operation panic. -/
theorem peer_addr_failure_panics_witness :
    all_connections_step toString 2 7 (⟨1, 7⟩ : ConnectRequest Nat Nat)
        (.ok streamBad) = .panicked
    ∧ (∀ o : SingleConnectionError Nat,
        all_connections_step toString 2 7 (⟨1, 7⟩ : ConnectRequest Nat Nat)
          (.ok streamBad) ≠ .error o)
    ∧ connect toString 7 ourInfoW theirInfoW
        [MergedEvent.direct (.ok streamBad)] = .panicked :=
  peer_addr_failure_panics toString 7 ourInfoW theirInfoW
    [MergedEvent.direct (.ok streamBad)] [] [] streamBad ⟨6⟩ rfl (by decide)
    (by rfl)

end Crust
